import Mathlib

/-!
Verification of the score-derivation and aggregation engine of the
synthetic standard-school dashboard (file
`create_and_process_data/functions.py`).

Missing survey responses (pandas `NaN`) are modelled as `none : Option ℚ`;
a present numeric response `v` is `some v`.  Pandas elementwise arithmetic
propagates `NaN`, so addition, subtraction and division of options are
strict in `none`.  Column-wise operations of the source are modelled
row-wise: every operation in `calculate_scores` is elementwise, so one row
carries all the information the claims are about.
-/

namespace Dashboard

/-- Strict addition, modelling pandas `+` on series: `NaN` propagates. -/
def add_nan (x acc : Option ℚ) : Option ℚ :=
  match x, acc with
  | some v, some s => some (v + s)
  | _, _ => none

/-- Embeds `sum_score` (`functions.py` lines 7-15): `df.sum(axis=1, skipna=False)`
for one row — the strict sum of the row's entries, `none` as soon as any
entry is `none`. -/
def sum_score (row : List (Option ℚ)) : Option ℚ :=
  row.foldr add_nan (some 0)

/-- Embeds `reverse_score` (`functions.py` lines 18-37):
`[max + min - x for x in scores]`, where arithmetic on `NaN` yields `NaN`. -/
def reverse_score (scores : List (Option ℚ)) (min max : ℚ) : List (Option ℚ) :=
  scores.map (fun x => x.map (fun v => max + min - v))

/-- Elementwise form of `reverse_score`, used where the source applies it to
a single column or to an already-computed score column. -/
def reverse_value (x : Option ℚ) (min max : ℚ) : Option ℚ :=
  x.map (fun v => max + min - v)

/-- Embeds the `autonomy_score` computation (`functions.py` lines 60-73):
reverse-score `autonomy_pressure` and `autonomy_told` on the 1-5 scale and
take the strict sum of the six items. -/
def autonomy_score (autonomy_pressure autonomy_express autonomy_decide
    autonomy_told autonomy_myself autonomy_choice : Option ℚ) : Option ℚ :=
  sum_score [reverse_value autonomy_pressure 1 5,
             autonomy_express,
             autonomy_decide,
             reverse_value autonomy_told 1 5,
             autonomy_myself,
             autonomy_choice]

/-- Embeds `optimism_score` (`functions.py` lines 78-80): strict sum of the
four optimism items. -/
def optimism_score (optimism_future optimism_best optimism_good
    optimism_work : Option ℚ) : Option ℚ :=
  sum_score [optimism_future, optimism_best, optimism_good, optimism_work]

/-- Embeds `wellbeing_score` (`functions.py` lines 82-86): strict sum of the
seven psychological-wellbeing items. -/
def wellbeing_score (wellbeing_optimistic wellbeing_useful wellbeing_relaxed
    wellbeing_problems wellbeing_thinking wellbeing_close
    wellbeing_mind : Option ℚ) : Option ℚ :=
  sum_score [wellbeing_optimistic, wellbeing_useful, wellbeing_relaxed,
             wellbeing_problems, wellbeing_thinking, wellbeing_close,
             wellbeing_mind]

/-- Embeds `esteem_score` (`functions.py` lines 88-92): reverse-score the
five self-esteem items on the 1-4 scale, then take their strict sum. -/
def esteem_score (esteem_satisfied esteem_qualities esteem_well
    esteem_value esteem_good : Option ℚ) : Option ℚ :=
  sum_score (reverse_score
    [esteem_satisfied, esteem_qualities, esteem_well, esteem_value, esteem_good] 1 4)

/-- Embeds `social_score` (`functions.py` line 240): strict sum of the four
friendship/social-support items. -/
def social_score (social_along social_time social_support
    social_hard : Option ℚ) : Option ℚ :=
  sum_score [social_along, social_time, social_support, social_hard]

/-- Embeds `bully_score` (`functions.py` lines 242-245): strict sum of the
three bullying items, then a final reverse on the 3-12 combined scale. -/
def bully_score (bully_physical bully_other bully_cyber : Option ℚ) : Option ℚ :=
  reverse_value (sum_score [bully_physical, bully_other, bully_cyber]) 3 12

lemma add_nan_left_none (acc : Option ℚ) : add_nan none acc = none := by
  cases acc <;> rfl

lemma add_nan_right_none (x : Option ℚ) : add_nan x none = none := by
  cases x <;> rfl

/-- If any entry of a row is missing, its strict sum is missing. -/
lemma sum_score_eq_none_of_mem (row : List (Option ℚ)) (h : none ∈ row) :
    sum_score row = none := by
  induction row with
  | nil => cases h
  | cons a t ih =>
      rcases List.mem_cons.mp h with ha | ht
      · simp [sum_score, ← ha, add_nan_left_none]
      · simp only [sum_score, List.foldr_cons]
        rw [show t.foldr add_nan (some 0) = sum_score t from rfl, ih ht,
          add_nan_right_none]

/-- C1: for every topic defined via strict sum (autonomy, optimism,
wellbeing, esteem, social, bully) and every input row, if any one of the
fixed contributing item columns is missing in that row, the topic score for
that row is missing; the sum never skips missing inputs to produce a
partial sum. -/
theorem strict_sum_topics_missing_propagates :
    (∀ p e d t m c : Option ℚ,
      (p = none ∨ e = none ∨ d = none ∨ t = none ∨ m = none ∨ c = none) →
      autonomy_score p e d t m c = none) ∧
    (∀ a b c d : Option ℚ,
      (a = none ∨ b = none ∨ c = none ∨ d = none) →
      optimism_score a b c d = none) ∧
    (∀ a b c d e f g : Option ℚ,
      (a = none ∨ b = none ∨ c = none ∨ d = none ∨ e = none ∨ f = none ∨ g = none) →
      wellbeing_score a b c d e f g = none) ∧
    (∀ a b c d e : Option ℚ,
      (a = none ∨ b = none ∨ c = none ∨ d = none ∨ e = none) →
      esteem_score a b c d e = none) ∧
    (∀ a b c d : Option ℚ,
      (a = none ∨ b = none ∨ c = none ∨ d = none) →
      social_score a b c d = none) ∧
    (∀ a b c : Option ℚ,
      (a = none ∨ b = none ∨ c = none) →
      bully_score a b c = none) := by
  refine ⟨?_, ?_, ?_, ?_, ?_, ?_⟩
  · intro p e d t m c h
    apply sum_score_eq_none_of_mem
    rcases h with h | h | h | h | h | h <;> subst h <;> simp [reverse_value]
  · intro a b c d h
    apply sum_score_eq_none_of_mem
    rcases h with h | h | h | h <;> subst h <;> simp
  · intro a b c d e f g h
    apply sum_score_eq_none_of_mem
    rcases h with h | h | h | h | h | h | h <;> subst h <;> simp
  · intro a b c d e h
    apply sum_score_eq_none_of_mem
    rcases h with h | h | h | h | h <;> subst h <;>
      simp [reverse_score, List.mem_map]
  · intro a b c d h
    apply sum_score_eq_none_of_mem
    rcases h with h | h | h | h <;> subst h <;> simp
  · intro a b c h
    unfold bully_score
    rw [sum_score_eq_none_of_mem]
    · rfl
    · rcases h with h | h | h <;> subst h <;> simp

/-- C1 witness: each strict-sum topic evaluated at a row with one missing
item yields a missing score. -/
theorem strict_sum_topics_missing_propagates_witness :
    autonomy_score none (some 3) (some 3) (some 3) (some 3) (some 3) = none ∧
    optimism_score (some 2) none (some 2) (some 2) = none ∧
    wellbeing_score (some 2) (some 2) none (some 2) (some 2) (some 2) (some 2) = none ∧
    esteem_score (some 2) (some 2) (some 2) none (some 2) = none ∧
    social_score (some 2) (some 2) (some 2) none = none ∧
    bully_score none (some 2) (some 2) = none :=
  ⟨strict_sum_topics_missing_propagates.1 _ _ _ _ _ _ (by simp),
   strict_sum_topics_missing_propagates.2.1 _ _ _ _ (by simp),
   strict_sum_topics_missing_propagates.2.2.1 _ _ _ _ _ _ _ (by simp),
   strict_sum_topics_missing_propagates.2.2.2.1 _ _ _ _ _ (by simp),
   strict_sum_topics_missing_propagates.2.2.2.2.1 _ _ _ _ (by simp),
   strict_sum_topics_missing_propagates.2.2.2.2.2 _ _ _ (by simp)⟩

/-- C4: for every input sequence of scores and declared bounds, reverse
scoring preserves length, maps the element at every position to
`min + max - x` using the declared bounds, and maps every missing element
to missing. -/
theorem reverse_score_elementwise (scores : List (Option ℚ)) (min max : ℚ) :
    (reverse_score scores min max).length = scores.length ∧
    (∀ i : ℕ, (reverse_score scores min max)[i]? =
      Option.map (Option.map (fun x => min + max - x)) scores[i]?) ∧
    (∀ i : ℕ, scores[i]? = some none →
      (reverse_score scores min max)[i]? = some none) := by
  have hfun : (fun x : Option ℚ => x.map (fun v => max + min - v)) =
      Option.map (fun x : ℚ => min + max - x) := by
    funext x
    cases x <;> simp [add_comm]
  refine ⟨by simp [reverse_score], ?_, ?_⟩
  · intro i
    simp [reverse_score, List.getElem?_map, hfun]
  · intro i hi
    simp [reverse_score, List.getElem?_map, hi]

/-- C4 witness: reverse-scoring `[some 2, none]` on the 1-5 scale keeps the
length, sends 2 to 1 + 5 - 2 and keeps the missing element missing. -/
theorem reverse_score_elementwise_witness :
    (reverse_score [some 2, none] 1 5).length = 2 ∧
    (reverse_score [some 2, none] 1 5)[0]? =
      Option.map (Option.map (fun x => 1 + 5 - x)) (([some 2, none] : List (Option ℚ))[0]?) ∧
    (reverse_score [some 2, none] 1 5)[1]? = some none := by
  obtain ⟨h1, h2, h3⟩ := reverse_score_elementwise [some 2, none] 1 5
  exact ⟨h1, h2 0, h3 1 rfl⟩

/-- C9: reverse scoring is involutive: for all bounds and every non-missing
value within those bounds, applying `reverse_score` with the same bounds
twice returns the value. -/
theorem reverse_score_involutive (min max x : ℚ)
    (hlo : min ≤ x) (hhi : x ≤ max) :
    reverse_score (reverse_score [some x] min max) min max = [some x] := by
  simp [reverse_score]

/-- C9 witness: reversing 2 twice on the 1-5 scale returns 2. -/
theorem reverse_score_involutive_witness :
    reverse_score (reverse_score [some 2] 1 5) 1 5 = [some 2] :=
  reverse_score_involutive 1 5 2 (by norm_num) (by norm_num)

/-- Tests whether a response is one of the negative-outcome discrimination
answers 1, 2 or 3 (`isin([1, 2, 3])`); a missing response is not. -/
def neg_response (x : Option ℚ) : Bool :=
  match x with
  | some v => decide (v = 1) || decide (v = 2) || decide (v = 3)
  | none => false

/-- Embeds `discrim_score` (`functions.py` lines 202-214): over the five
`discrim_*` columns, `isin([1, 2, 3]).any(axis=1).map({True: 0, False: 1})`,
then set to `NaN` on rows where all five responses are `NaN`. -/
def discrim_score (discrim_race discrim_gender discrim_orientation
    discrim_disability discrim_faith : Option ℚ) : Option ℚ :=
  let discrim_col := [discrim_race, discrim_gender, discrim_orientation,
                      discrim_disability, discrim_faith]
  let base : ℚ := if discrim_col.any neg_response then 0 else 1
  if discrim_col.all Option.isNone then none else some base

/-- C3: the discrimination score is missing exactly when all five inputs are
missing (so it is non-missing whenever at least one input is non-missing),
and when non-missing it is 0 if any input is a negative-outcome response
and 1 otherwise. -/
theorem discrim_score_any_of_five (a b c d e : Option ℚ) :
    (discrim_score a b c d e = none ↔
      (a = none ∧ b = none ∧ c = none ∧ d = none ∧ e = none)) ∧
    ((a ≠ none ∨ b ≠ none ∨ c ≠ none ∨ d ≠ none ∨ e ≠ none) →
      discrim_score a b c d e =
        some (if [a, b, c, d, e].any neg_response then 0 else 1)) := by
  constructor
  · simp [discrim_score, Option.isNone_iff_eq_none]
  · intro hsome
    have hall : ¬ ([a, b, c, d, e].all Option.isNone = true) := by
      simp only [List.all_cons, List.all_nil, Bool.and_true, Bool.and_eq_true,
        Option.isNone_iff_eq_none]
      intro hc
      rcases hsome with h | h | h | h | h <;>
        first
        | exact h hc.1
        | exact h hc.2.1
        | exact h hc.2.2.1
        | exact h hc.2.2.2.1
        | exact h hc.2.2.2.2
    simp [discrim_score, hall]

/-- C3 witness: with only the third input present and equal to 4 (not a
negative-outcome response), the score is non-missing and equals 1; the
missingness characterisation also holds at this row. -/
theorem discrim_score_any_of_five_witness :
    (discrim_score none none (some 4) none none = none ↔
      ((none : Option ℚ) = none ∧ (none : Option ℚ) = none ∧
        (some (4 : ℚ)) = none ∧ (none : Option ℚ) = none ∧
        (none : Option ℚ) = none)) ∧
    discrim_score none none (some 4) none none =
      some (if [none, none, some 4, none, none].any neg_response then 0 else 1) := by
  obtain ⟨h1, h2⟩ := discrim_score_any_of_five none none (some 4) none none
  exact ⟨h1, h2 (by simp)⟩

/-- Embeds the `helpful` rescale of `functions.py` line 152:
`.map({1: 1, 2: 2.5, 3: 4})`; any value outside the dictionary becomes
missing. -/
def helpful_map (v : ℚ) : Option ℚ :=
  if v = 1 then some 1 else if v = 2 then some (5 / 2) else
  if v = 3 then some 4 else none

/-- Embeds the `talk_listen_helpful` scratch column (`functions.py`
lines 150-152): `(listen + helpful.map({1: 1, 2: 2.5, 3: 4})) / 2`, with
`NaN` propagating through addition and division. -/
def talk_listen_helpful (talk_listen talk_helpful : Option ℚ) : Option ℚ :=
  Option.map (fun s => s / 2) (add_nan talk_listen (Option.bind talk_helpful helpful_map))

/-- Embeds the per-person talk score (`functions.py` lines 154-157):
`np.where(talk == 1, talk_listen_helpful, talk_if)`.  In pandas a missing
(`NaN`) gating value compares unequal to 1, so the condition is
`talk = some 1`. -/
def one_talk_score (talk talk_listen talk_helpful talk_if : Option ℚ) : Option ℚ :=
  if talk = some 1 then talk_listen_helpful talk_listen talk_helpful else talk_if

/-- Embeds the overall `talk_score` (`functions.py` lines 159-161): the
`NaN`-propagating sum of the staff, home and peer talk scores. -/
def talk_score (staff_talk_score home_talk_score peer_talk_score : Option ℚ) : Option ℚ :=
  add_nan (add_nan staff_talk_score home_talk_score) peer_talk_score

/-- C2 counterexample: with the gating item `staff_talk` missing but
`staff_talk_if = 3` answered, the per-person talk score is `3`, not
missing — a missing required gating item does not propagate as missing. -/
theorem one_talk_score_missing_gate_not_missing :
    one_talk_score none (some 1) (some 1) (some 3) ≠ none := by
  simp [one_talk_score]

/-- C2 amended: missing raw items propagate through the talk-score
computation along the selected branch only.  If the gating item equals 1
(yes), the score is the listen/helpful average and is missing whenever
`talk_listen` or `talk_helpful` is missing; if the gating item is anything
else — including missing — the score is exactly the `talk_if` value, so a
missing gate yields a missing score only when `talk_if` is also missing;
and a missing per-person score propagates into the overall talk score. -/
theorem talk_score_missing_propagation :
    (∀ talk_listen talk_helpful talk_if : Option ℚ,
      (talk_listen = none ∨ talk_helpful = none) →
      one_talk_score (some 1) talk_listen talk_helpful talk_if = none) ∧
    (∀ talk talk_listen talk_helpful talk_if : Option ℚ,
      talk ≠ some 1 →
      one_talk_score talk talk_listen talk_helpful talk_if = talk_if) ∧
    (∀ staff home peer : Option ℚ,
      (staff = none ∨ home = none ∨ peer = none) →
      talk_score staff home peer = none) := by
  refine ⟨?_, ?_, ?_⟩
  · intro talk_listen talk_helpful talk_if h
    rcases h with h | h <;> subst h <;>
      simp [one_talk_score, talk_listen_helpful, add_nan_left_none, add_nan_right_none]
  · intro talk talk_listen talk_helpful talk_if h
    simp [one_talk_score, h]
  · intro staff home peer h
    rcases h with h | h | h <;> subst h <;>
      simp [talk_score, add_nan_left_none, add_nan_right_none]

/-- C2 amended witness: a yes answer with missing listen item yields a
missing staff score; a missing gate with `talk_if = 3` yields 3; a missing
staff score nulls the overall talk score. -/
theorem talk_score_missing_propagation_witness :
    one_talk_score (some 1) none (some 2) (some 3) = none ∧
    one_talk_score none (some 1) (some 1) (some 3) = some 3 ∧
    talk_score none (some 4) (some 4) = none :=
  ⟨talk_score_missing_propagation.1 _ _ _ (Or.inl rfl),
   talk_score_missing_propagation.2.1 _ _ _ _ (by simp),
   talk_score_missing_propagation.2.2 _ _ _ (Or.inl rfl)⟩

/-- One of the four demographic axes used by the grouping scheme. -/
inductive Axis
  | year_group
  | gender
  | fsm
  | sen
deriving DecidableEq, Repr

/-- One pupil-level row as seen by `results_by_school_and_group`: the school
label and the four demographic labels, each possibly missing (`NaN`). -/
structure Pupil where
  school_lab : Option String
  year_group_lab : Option String
  gender_lab : Option String
  fsm_lab : Option String
  sen_lab : Option String
deriving DecidableEq, Repr

/-- One aggregation result row: the caller-supplied aggregation function's
output, modelled by a pupil count and one statistic column, plus the five
grouping label columns that `results_by_school_and_group` attaches. -/
structure ResultRow where
  count : Nat
  stat : Option ℚ
  school_lab : String
  year_group_lab : String
  gender_lab : String
  fsm_lab : String
  sen_lab : String
deriving DecidableEq, Repr

/-- One entry of the `groups` list of `functions.py` lines 279-288: either
the `'All'` sentinel or a `[category, variable]` filter on one axis. -/
inductive Group
  | All : Group
  | Filter : String → Axis → Group
deriving DecidableEq, Repr

/-- The fixed group list of `functions.py` lines 279-288, in source order. -/
def groups : List Group :=
  [Group.All,
   Group.Filter "Year 8" Axis.year_group, Group.Filter "Year 10" Axis.year_group,
   Group.Filter "Girl" Axis.gender, Group.Filter "Boy" Axis.gender,
   Group.Filter "FSM" Axis.fsm, Group.Filter "Non-FSM" Axis.fsm,
   Group.Filter "SEN" Axis.sen, Group.Filter "Non-SEN" Axis.sen]

/-- The pupil's label column for an axis. -/
def Pupil.axis_lab (p : Pupil) : Axis → Option String
  | Axis.year_group => p.year_group_lab
  | Axis.gender => p.gender_lab
  | Axis.fsm => p.fsm_lab
  | Axis.sen => p.sen_lab

/-- The result row's label column for an axis. -/
def ResultRow.axis_lab (r : ResultRow) : Axis → String
  | Axis.year_group => r.year_group_lab
  | Axis.gender => r.gender_lab
  | Axis.fsm => r.fsm_lab
  | Axis.sen => r.sen_lab

/-- Overwrite the result row's label column for an axis
(`res[group[1]] = group[0]`). -/
def ResultRow.set_axis (r : ResultRow) (a : Axis) (v : String) : ResultRow :=
  match a with
  | Axis.year_group => { r with year_group_lab := v }
  | Axis.gender => { r with gender_lab := v }
  | Axis.fsm => { r with fsm_lab := v }
  | Axis.sen => { r with sen_lab := v }

/-- Embeds the group filter test of `functions.py` lines 301-302:
`to_agg[group[1]] == group[0]`.  A missing label compares unequal to every
category, as pandas `NaN == value` is `False`. -/
def matches_group (g : Group) (p : Pupil) : Bool :=
  match g with
  | Group.All => true
  | Group.Filter label a => p.axis_lab a == some label

/-- Embeds the subset computation of `functions.py` lines 300-302:
restrict to the school's rows, then (unless the group is `'All'`) to rows
whose axis label equals the group's category. -/
def filter_group (data : List Pupil) (school : String) (g : Group) : List Pupil :=
  (data.filter (fun p => p.school_lab == some school)).filter (fun p => matches_group g p)

/-- Embeds the label stamping of `functions.py` lines 312-321: set the
school label, set all four axis labels to `'All'`, then overwrite the
filtered axis's label when a filter was used. -/
def set_labels (school : String) (g : Group) (res : ResultRow) : ResultRow :=
  let r := { res with school_lab := school, year_group_lab := "All",
                      gender_lab := "All", fsm_lab := "All", sen_lab := "All" }
  match g with
  | Group.All => r
  | Group.Filter label a => r.set_axis a label

/-- Embeds one iteration of the inner loop of `functions.py` lines 296-324:
aggregate the filtered subset — or copy `no_pupils` when the subset is
empty — and stamp the school and group labels. -/
def agg_row (data : List Pupil) (agg_func : List Pupil → ResultRow)
    (no_pupils : ResultRow) (school : String) (g : Group) : ResultRow :=
  let to_agg := filter_group data school g
  let res := if to_agg.length = 0 then no_pupils else agg_func to_agg
  set_labels school g res

/-- Embeds the school list of `functions.py` line 292:
`data['school_lab'].dropna().drop_duplicates().sort_values()`. -/
def schools_of (data : List Pupil) : List String :=
  List.insertionSort (fun a b => a ≤ b) ((data.filterMap Pupil.school_lab).dedup)

/-- Embeds `results_by_school_and_group` (`functions.py` lines 250-329):
for each school in ascending label order and each group of the fixed list,
one aggregated-and-labelled row, concatenated in iteration order. -/
def results_by_school_and_group (data : List Pupil)
    (agg_func : List Pupil → ResultRow) (no_pupils : ResultRow) : List ResultRow :=
  (schools_of data).flatMap (fun school =>
    groups.map (fun g => agg_row data agg_func no_pupils school g))

lemma flatMap_length_const {α β : Type} (l : List α) (f : α → List β) (k : ℕ)
    (hk : ∀ a, (f a).length = k) : (l.flatMap f).length = k * l.length := by
  induction l with
  | nil => simp
  | cons a t ih =>
      rw [List.flatMap_cons, List.length_append, hk, ih, List.length_cons]
      ring

lemma flatMap_getElem_const {α β : Type} (f : α → List β) (k : ℕ)
    (hk : ∀ a, (f a).length = k) :
    ∀ (l : List α) (i j : ℕ) (hi : i < l.length), j < k →
      (l.flatMap f)[k * i + j]? = (f (l.get ⟨i, hi⟩))[j]? := by
  intro l
  induction l with
  | nil => intro i j hi _; exact absurd hi (Nat.not_lt_zero i)
  | cons a t ih =>
      intro i j hi hj
      cases i with
      | zero =>
          have hlt : (0 : ℕ) * k + j < (f a).length := by
            rw [hk]
            simpa using hj
          rw [List.flatMap_cons, List.getElem?_append_left (by simpa using hlt)]
          simp
      | succ n =>
          have hle : (f a).length ≤ k * (n + 1) + j := by
            rw [hk]
            nlinarith
          rw [List.flatMap_cons, List.getElem?_append_right hle]
          have harith : k * (n + 1) + j - (f a).length = k * n + j := by
            rw [hk]
            ring_nf
            omega
          rw [harith, ih n j (Nat.lt_of_succ_lt_succ hi) hj]
          simp

lemma groups_length : groups.length = 9 := rfl

lemma set_labels_count (school : String) (g : Group) (res : ResultRow) :
    (set_labels school g res).count = res.count := by
  cases g with
  | All => rfl
  | Filter label a => cases a <;> rfl

lemma set_labels_stat (school : String) (g : Group) (res : ResultRow) :
    (set_labels school g res).stat = res.stat := by
  cases g with
  | All => rfl
  | Filter label a => cases a <;> rfl

/-- C6: the aggregator's output row count is nine rows — one per group of
the fixed grouping scheme, 1 + (2 + 2 + 2 + 2) — for each distinct
non-missing school value; rows with a missing school label contribute no
school to the iteration. -/
theorem results_row_count (data : List Pupil)
    (agg_func : List Pupil → ResultRow) (no_pupils : ResultRow) :
    (results_by_school_and_group data agg_func no_pupils).length =
      9 * ((data.filterMap Pupil.school_lab).dedup).length := by
  unfold results_by_school_and_group
  rw [flatMap_length_const _ _ 9 (fun s => by simp [groups])]
  congr 1
  exact List.length_insertionSort (fun a b => a ≤ b) _

/-- C5: for every school and group whose filtered pupil subset is empty,
the output contains the caller-supplied empty-group template with the
labels stamped on it; assuming the template's contract (count 0,
statistics missing), that emitted row has count exactly 0 and missing
statistics. -/
theorem empty_group_template_row (data : List Pupil)
    (agg_func : List Pupil → ResultRow) (no_pupils : ResultRow)
    (school : String) (g : Group)
    (hs : school ∈ schools_of data) (hg : g ∈ groups)
    (hempty : filter_group data school g = [])
    (hcount : no_pupils.count = 0) (hstat : no_pupils.stat = none) :
    set_labels school g no_pupils ∈
      results_by_school_and_group data agg_func no_pupils ∧
    (set_labels school g no_pupils).count = 0 ∧
    (set_labels school g no_pupils).stat = none := by
  refine ⟨?_, by rw [set_labels_count]; exact hcount,
          by rw [set_labels_stat]; exact hstat⟩
  unfold results_by_school_and_group
  rw [List.mem_flatMap]
  refine ⟨school, hs, List.mem_map.mpr ⟨g, hg, ?_⟩⟩
  simp [agg_row, hempty]

/-- C5 witness: one school with a single non-FSM year 8 girl; the FSM
filter matches no pupils, and the emitted FSM row is the labelled template
with count 0 and missing statistic. -/
theorem empty_group_template_row_witness :
    set_labels "School A" (Group.Filter "FSM" Axis.fsm)
        (ResultRow.mk 0 none "" "" "" "" "") ∈
      results_by_school_and_group
        [Pupil.mk (some "School A") (some "Year 8") (some "Girl")
          (some "Non-FSM") (some "Non-SEN")]
        (fun l => ResultRow.mk l.length (some 1) "" "" "" "" "")
        (ResultRow.mk 0 none "" "" "" "" "") ∧
    (set_labels "School A" (Group.Filter "FSM" Axis.fsm)
        (ResultRow.mk 0 none "" "" "" "" "")).count = 0 ∧
    (set_labels "School A" (Group.Filter "FSM" Axis.fsm)
        (ResultRow.mk 0 none "" "" "" "" "")).stat = none :=
  empty_group_template_row _ _ _ _ _ (by decide) (by decide) (by decide) rfl rfl

/-- C7: the output row order is deterministic: the school iteration list is
sorted ascending, and the row for the `i`-th school and `j`-th group of the
fixed group list (All, Year 8, Year 10, Girl, Boy, FSM, Non-FSM, SEN,
Non-SEN) sits at exactly position `9 * i + j` of the concatenated output. -/
theorem results_ordering (data : List Pupil)
    (agg_func : List Pupil → ResultRow) (no_pupils : ResultRow)
    (i j : ℕ) (s : String) (gr : Group)
    (hs : (schools_of data)[i]? = some s) (hg : groups[j]? = some gr) :
    List.Sorted (fun a b : String => a ≤ b) (schools_of data) ∧
    (results_by_school_and_group data agg_func no_pupils)[9 * i + j]? =
      some (agg_row data agg_func no_pupils s gr) := by
  obtain ⟨hi, hs'⟩ := List.getElem?_eq_some.mp hs
  obtain ⟨hj, hg'⟩ := List.getElem?_eq_some.mp hg
  constructor
  · exact List.sorted_insertionSort (fun a b => a ≤ b) _
  · unfold results_by_school_and_group
    rw [flatMap_getElem_const _ 9 (fun s => by simp [groups]) _ i j hi
      (by simpa [groups] using hj)]
    rw [List.getElem?_map]
    rw [List.getElem?_eq_getElem hj]
    simp only [Option.map_some']
    have hget : (schools_of data).get ⟨i, hi⟩ = s := hs'
    rw [hget, hg']

/-- C7 witness: over one school the school list is sorted and the row at
position 9 · 0 + 2 of the output is that school's Year 10 row. -/
theorem results_ordering_witness :
    List.Sorted (fun a b : String => a ≤ b)
      (schools_of
        [Pupil.mk (some "B") (some "Year 8") (some "Girl") (some "FSM") (some "SEN")]) ∧
    (results_by_school_and_group
        [Pupil.mk (some "B") (some "Year 8") (some "Girl") (some "FSM") (some "SEN")]
        (fun l => ResultRow.mk l.length (some 1) "" "" "" "" "")
        (ResultRow.mk 0 none "" "" "" "" ""))[9 * 0 + 2]? =
      some (agg_row
        [Pupil.mk (some "B") (some "Year 8") (some "Girl") (some "FSM") (some "SEN")]
        (fun l => ResultRow.mk l.length (some 1) "" "" "" "" "")
        (ResultRow.mk 0 none "" "" "" "" "")
        "B" (Group.Filter "Year 10" Axis.year_group)) :=
  results_ordering _ _ _ 0 2 "B" (Group.Filter "Year 10" Axis.year_group)
    (by decide) (by decide)

lemma set_labels_school (school : String) (g : Group) (res : ResultRow) :
    (set_labels school g res).school_lab = school := by
  cases g with
  | All => rfl
  | Filter label a => cases a <;> rfl

lemma agg_row_eq_set_labels (data : List Pupil)
    (agg_func : List Pupil → ResultRow) (no_pupils : ResultRow)
    (school : String) (g : Group) :
    agg_row data agg_func no_pupils school g =
      set_labels school g
        (if (filter_group data school g).length = 0 then no_pupils
         else agg_func (filter_group data school g)) := rfl

/-- C8: every output row carries its school's label, and either it is the
unfiltered row of its school, with all four axis label columns equal to
`"All"`, or it was produced by a single-axis filter of the fixed group
list, and exactly the filtered axis's label column carries the filter's
category while the other axes' label columns equal `"All"`. -/
theorem row_axis_labels (data : List Pupil)
    (agg_func : List Pupil → ResultRow) (no_pupils : ResultRow)
    (row : ResultRow)
    (hrow : row ∈ results_by_school_and_group data agg_func no_pupils) :
    ∃ school g, school ∈ schools_of data ∧ g ∈ groups ∧
      row.school_lab = school ∧
      ((g = Group.All ∧ ∀ a : Axis, row.axis_lab a = "All") ∨
       (∃ label a, g = Group.Filter label a ∧ row.axis_lab a = label ∧
         ∀ b : Axis, b ≠ a → row.axis_lab b = "All")) := by
  unfold results_by_school_and_group at hrow
  rw [List.mem_flatMap] at hrow
  obtain ⟨school, hs, hmem⟩ := hrow
  rw [List.mem_map] at hmem
  obtain ⟨g, hg, hrow⟩ := hmem
  subst hrow
  rw [agg_row_eq_set_labels]
  refine ⟨school, g, hs, hg, set_labels_school _ _ _, ?_⟩
  cases g with
  | All =>
      left
      exact ⟨rfl, fun a => by cases a <;> rfl⟩
  | Filter label a =>
      right
      refine ⟨label, a, rfl, by cases a <;> rfl, ?_⟩
      intro b hb
      cases a <;> cases b <;> first | exact absurd rfl hb | rfl

/-- C8 witness: the output over one school contains a row (its FSM row, at
index 5) for which the labelling property of `row_axis_labels` holds. -/
theorem row_axis_labels_witness :
    ∃ school g,
      school ∈ schools_of
        [Pupil.mk (some "School A") (some "Year 8") (some "Girl")
          (some "FSM") (some "Non-SEN")] ∧
      g ∈ groups ∧
      (agg_row
        [Pupil.mk (some "School A") (some "Year 8") (some "Girl")
          (some "FSM") (some "Non-SEN")]
        (fun l => ResultRow.mk l.length (some 1) "" "" "" "" "")
        (ResultRow.mk 0 none "" "" "" "" "")
        "School A" (Group.Filter "FSM" Axis.fsm)).school_lab = school ∧
      ((g = Group.All ∧ ∀ a : Axis,
        (agg_row
          [Pupil.mk (some "School A") (some "Year 8") (some "Girl")
            (some "FSM") (some "Non-SEN")]
          (fun l => ResultRow.mk l.length (some 1) "" "" "" "" "")
          (ResultRow.mk 0 none "" "" "" "" "")
          "School A" (Group.Filter "FSM" Axis.fsm)).axis_lab a = "All") ∨
       (∃ label a, g = Group.Filter label a ∧
        (agg_row
          [Pupil.mk (some "School A") (some "Year 8") (some "Girl")
            (some "FSM") (some "Non-SEN")]
          (fun l => ResultRow.mk l.length (some 1) "" "" "" "" "")
          (ResultRow.mk 0 none "" "" "" "" "")
          "School A" (Group.Filter "FSM" Axis.fsm)).axis_lab a = label ∧
         ∀ b : Axis, b ≠ a →
           (agg_row
             [Pupil.mk (some "School A") (some "Year 8") (some "Girl")
               (some "FSM") (some "Non-SEN")]
             (fun l => ResultRow.mk l.length (some 1) "" "" "" "" "")
             (ResultRow.mk 0 none "" "" "" "" "")
             "School A" (Group.Filter "FSM" Axis.fsm)).axis_lab b = "All")) :=
  row_axis_labels
    [Pupil.mk (some "School A") (some "Year 8") (some "Girl")
      (some "FSM") (some "Non-SEN")]
    (fun l => ResultRow.mk l.length (some 1) "" "" "" "" "")
    (ResultRow.mk 0 none "" "" "" "" "") _ (by decide)

/-- C10: a pupil whose demographic label is missing on one axis is
included in their school's unfiltered (All) subset, excluded from every
subset that filters on the axis with the missing label, and included in
the subset of any other axis's filter whose category matches their label
there. -/
theorem missing_axis_label_filtering (data : List Pupil) (p : Pupil)
    (school : String) (a : Axis)
    (hp : p ∈ data) (hschool : p.school_lab = some school)
    (hmiss : p.axis_lab a = none) :
    p ∈ filter_group data school Group.All ∧
    (∀ label : String, p ∉ filter_group data school (Group.Filter label a)) ∧
    (∀ (b : Axis) (label : String), b ≠ a → p.axis_lab b = some label →
      p ∈ filter_group data school (Group.Filter label b)) := by
  have hbase : p ∈ data.filter (fun q => q.school_lab == some school) :=
    List.mem_filter.mpr ⟨hp, by simp [hschool]⟩
  refine ⟨?_, ?_, ?_⟩
  · exact List.mem_filter.mpr ⟨hbase, rfl⟩
  · intro label hmem
    have hm := (List.mem_filter.mp hmem).2
    simp [matches_group, hmiss] at hm
  · intro b label hne hb
    exact List.mem_filter.mpr ⟨hbase, by simp [matches_group, hb]⟩

/-- C10 witness: a pupil with a missing gender label is in the All subset
and the Year 8 subset of their school, but in neither the Girl nor the Boy
subset. -/
theorem missing_axis_label_filtering_witness :
    Pupil.mk (some "School A") (some "Year 8") none (some "FSM") (some "SEN") ∈
      filter_group
        [Pupil.mk (some "School A") (some "Year 8") none (some "FSM") (some "SEN")]
        "School A" Group.All ∧
    (Pupil.mk (some "School A") (some "Year 8") none (some "FSM") (some "SEN") ∉
      filter_group
        [Pupil.mk (some "School A") (some "Year 8") none (some "FSM") (some "SEN")]
        "School A" (Group.Filter "Girl" Axis.gender)) ∧
    (Pupil.mk (some "School A") (some "Year 8") none (some "FSM") (some "SEN") ∉
      filter_group
        [Pupil.mk (some "School A") (some "Year 8") none (some "FSM") (some "SEN")]
        "School A" (Group.Filter "Boy" Axis.gender)) ∧
    Pupil.mk (some "School A") (some "Year 8") none (some "FSM") (some "SEN") ∈
      filter_group
        [Pupil.mk (some "School A") (some "Year 8") none (some "FSM") (some "SEN")]
        "School A" (Group.Filter "Year 8" Axis.year_group) := by
  obtain ⟨h1, h2, h3⟩ := missing_axis_label_filtering
    [Pupil.mk (some "School A") (some "Year 8") none (some "FSM") (some "SEN")]
    (Pupil.mk (some "School A") (some "Year 8") none (some "FSM") (some "SEN"))
    "School A" Axis.gender (by decide) rfl rfl
  exact ⟨h1, h2 "Girl", h2 "Boy",
    h3 Axis.year_group "Year 8" (by decide) rfl⟩

end Dashboard
